import Mathlib

/-!
# Verification of the simplewallet Python client

Shallow embedding of `src/pyclient/wallet/simplewallet_client.py`.

Conventions used throughout:
* Python `bytes` values are `List Nat` (each element a byte value).
* Python floats/exceptions/HTTP are modelled explicitly below.
* The external world (HTTP transport, filesystem, crypto library) is
  passed in as explicit function parameters, so every client operation
  is a pure Lean function of the client state, its arguments and the
  world it runs against.
-/

set_option maxRecDepth 4096

namespace SimpleWallet

/-! ## Bytes and UTF-8

`utf8` is the standard UTF-8 encoding of a string, computed from the
code points (this is what Python `str.encode()` produces). -/

def utf8Char (c : Char) : List Nat :=
  let n := c.toNat
  if n < 0x80 then [n]
  else if n < 0x800 then [0xC0 + n / 0x40, 0x80 + n % 0x40]
  else if n < 0x10000 then
    [0xE0 + n / 0x1000, 0x80 + n / 0x40 % 0x40, 0x80 + n % 0x40]
  else
    [0xF0 + n / 0x40000, 0x80 + n / 0x1000 % 0x40, 0x80 + n / 0x40 % 0x40,
      0x80 + n % 0x40]

def utf8 (s : String) : List Nat := s.data.flatMap utf8Char

/-! ## SHA-512 (FIPS 180-4), over byte lists

Faithful implementation of `hashlib.sha512`; the helper `_hash` below it
is the repository's `_hash` (line 39-40 of the source), returning the
hex digest string. -/

def hexChar (d : Nat) : Char :=
  if d < 10 then Char.ofNat (48 + d) else Char.ofNat (87 + d)

/-- One 64-bit rotation to the right. -/
def rotr64 (n w : Nat) : Nat := ((w >>> n) ||| (w <<< (64 - n))) % 2 ^ 64

def bigSigma0 (w : Nat) : Nat := rotr64 28 w ^^^ rotr64 34 w ^^^ rotr64 39 w
def bigSigma1 (w : Nat) : Nat := rotr64 14 w ^^^ rotr64 18 w ^^^ rotr64 41 w
def smallSigma0 (w : Nat) : Nat := rotr64 1 w ^^^ rotr64 8 w ^^^ (w >>> 7)
def smallSigma1 (w : Nat) : Nat := rotr64 19 w ^^^ rotr64 61 w ^^^ (w >>> 6)
def ch64 (x y z : Nat) : Nat := (x &&& y) ^^^ ((0xFFFFFFFFFFFFFFFF ^^^ x) &&& z)
def maj64 (x y z : Nat) : Nat := (x &&& y) ^^^ (x &&& z) ^^^ (y &&& z)

/-- The 80 SHA-512 round constants of FIPS 180-4 (the first 64 bits of
the fractional parts of the cube roots of the first 80 primes), written
in decimal. -/
def sha512K : List Nat :=
  [4794697086780616226, 8158064640168781261, 13096744586834688815,
   16840607885511220156, 4131703408338449720, 6480981068601479193,
   10538285296894168987, 12329834152419229976, 15566598209576043074,
   1334009975649890238, 2608012711638119052, 6128411473006802146,
   8268148722764581231, 9286055187155687089, 11230858885718282805,
   13951009754708518548, 16472876342353939154, 17275323862435702243,
   1135362057144423861, 2597628984639134821, 3308224258029322869,
   5365058923640841347, 6679025012923562964, 8573033837759648693,
   10970295158949994411, 12119686244451234320, 12683024718118986047,
   13788192230050041572, 14330467153632333762, 15395433587784984357,
   489312712824947311, 1452737877330783856, 2861767655752347644,
   3322285676063803686, 5560940570517711597, 5996557281743188959,
   7280758554555802590, 8532644243296465576, 9350256976987008742,
   10552545826968843579, 11727347734174303076, 12113106623233404929,
   14000437183269869457, 14369950271660146224, 15101387698204529176,
   15463397548674623760, 17586052441742319658, 1182934255886127544,
   1847814050463011016, 2177327727835720531, 2830643537854262169,
   3796741975233480872, 4115178125766777443, 5681478168544905931,
   6601373596472566643, 7507060721942968483, 8399075790359081724,
   8693463985226723168, 9568029438360202098, 10144078919501101548,
   10430055236837252648, 11840083180663258601, 13761210420658862357,
   14299343276471374635, 14566680578165727644, 15097957966210449927,
   16922976911328602910, 17689382322260857208, 500013540394364858,
   748580250866718886, 1242879168328830382, 1977374033974150939,
   2944078676154940804, 3659926193048069267, 4368137639120453308,
   4836135668995329356, 5532061633213252278, 6448918945643986474,
   6902733635092675308, 7801388544844847127]

structure Sha512State where
  a : Nat
  b : Nat
  c : Nat
  d : Nat
  e : Nat
  f : Nat
  g : Nat
  h : Nat
deriving DecidableEq

/-- The initial hash value of FIPS 180-4 (the first 64 bits of the
fractional parts of the square roots of the first 8 primes), in
decimal. -/
def sha512Init : Sha512State :=
  { a := 7640891576956012808, b := 13503953896175478587
    c := 4354685564936845355, d := 11912009170470909681
    e := 5840696475078001361, f := 11170449401992604703
    g := 2270897969802886507, h := 6620516959819538809 }

/-- Split a byte list into chunks of `k` bytes (fuel-driven so that the
kernel can evaluate it; the fuel is the list length, which suffices
because each step consumes at least one element when `k ≥ 1`). -/
def chunkListAux (k : Nat) : Nat → List Nat → List (List Nat)
  | _, [] => []
  | 0, _ :: _ => []
  | fuel + 1, x :: xs => (x :: xs).take k :: chunkListAux k fuel ((x :: xs).drop k)

def chunkList (k : Nat) (l : List Nat) : List (List Nat) := chunkListAux k l.length l

/-- Big-endian interpretation of a byte list as a natural number. -/
def beWord (bytes : List Nat) : Nat := bytes.foldl (fun acc b => acc * 256 + b) 0

def iterateF {α : Type} (f : α → α) : Nat → α → α
  | 0, x => x
  | k + 1, x => iterateF f k (f x)

/-- One step of the SHA-512 message-schedule extension; `ws` holds the
words produced so far, most recent first. -/
def extendStep (ws : List Nat) : List Nat :=
  (smallSigma1 (ws.getD 1 0) + ws.getD 6 0 + smallSigma0 (ws.getD 14 0) +
    ws.getD 15 0) % 2 ^ 64 :: ws

/-- The 80-word message schedule of a 128-byte block. -/
def scheduleW (block : List Nat) : List Nat :=
  ((iterateF extendStep 64 ((chunkList 8 block).map beWord).reverse)).reverse

def sha512Round (st : Sha512State) (kw : Nat × Nat) : Sha512State :=
  let t1 := (st.h + bigSigma1 st.e + ch64 st.e st.f st.g + kw.1 + kw.2) % 2 ^ 64
  let t2 := (bigSigma0 st.a + maj64 st.a st.b st.c) % 2 ^ 64
  { a := (t1 + t2) % 2 ^ 64, b := st.a, c := st.b, d := st.c
    e := (st.d + t1) % 2 ^ 64, f := st.e, g := st.f, h := st.g }

def compressBlock (st : Sha512State) (block : List Nat) : Sha512State :=
  let r := ((sha512K.zip (scheduleW block)).foldl sha512Round st)
  { a := (st.a + r.a) % 2 ^ 64, b := (st.b + r.b) % 2 ^ 64
    c := (st.c + r.c) % 2 ^ 64, d := (st.d + r.d) % 2 ^ 64
    e := (st.e + r.e) % 2 ^ 64, f := (st.f + r.f) % 2 ^ 64
    g := (st.g + r.g) % 2 ^ 64, h := (st.h + r.h) % 2 ^ 64 }

/-- The 16-byte big-endian rendering of the bit length, as appended by
SHA-512 padding. -/
def lengthBytes (n : Nat) : List Nat :=
  (List.range 16).map fun i => n / 2 ^ (8 * (15 - i)) % 256

def sha512Pad (msg : List Nat) : List Nat :=
  let L := msg.length
  let zeros := (128 - (L + 17) % 128) % 128
  msg ++ 0x80 :: List.replicate zeros 0 ++ lengthBytes (8 * L)

/-- The 8-byte big-endian rendering of a 64-bit word. -/
def wordBytes (w : Nat) : List Nat :=
  (List.range 8).map fun i => w / 2 ^ (8 * (7 - i)) % 256

def digestOf (st : Sha512State) : List Nat :=
  wordBytes st.a ++ wordBytes st.b ++ wordBytes st.c ++ wordBytes st.d ++
    wordBytes st.e ++ wordBytes st.f ++ wordBytes st.g ++ wordBytes st.h

/-- `hashlib.sha512(data).digest()`: the 64-byte SHA-512 digest. -/
def sha512 (msg : List Nat) : List Nat :=
  digestOf ((chunkList 128 (sha512Pad msg)).foldl compressBlock sha512Init)

/-- Lower-case hex rendering of a byte list, two characters per byte
(as `hexdigest` produces). -/
def hexOfBytes (bytes : List Nat) : List Char :=
  bytes.flatMap fun b => [hexChar (b / 16), hexChar (b % 16)]

/-- Source lines 39-40: `_hash(data) = hashlib.sha512(data).hexdigest()`. -/
def _hash (data : List Nat) : String := String.mk (hexOfBytes (sha512 data))

/-! ## Python-level helpers -/

/-- The exceptions observable from the client. `simpleWalletException`
models `SimpleWalletException` (declared in
`wallet/simplewallet_exceptions.py`, not part of `src/`; modelled from
the spec as a plain exception carrying its message — the spec's
"configuration error" / "submission error" kind). `attributeError`
models Python's built-in `AttributeError`, raised when an attribute
that was never assigned (or a method of `None`) is accessed. -/
inductive PyError where
  | simpleWalletException (msg : String)
  | attributeError (attr : String)
deriving DecidableEq

/-- `isSWExc e` is true exactly when `e` is a `SimpleWalletException`
(the kind the spec calls a configuration/submission error). -/
def isSWExc : PyError → Bool
  | .simpleWalletException _ => true
  | .attributeError _ => false

/-- A Python value passed as `value` to `deposit`/`withdraw`; `pyStr`
is its `str()` rendering. The client performs no validation, so both
numeric and non-numeric values flow through unchanged. -/
inductive PyValue where
  | int (n : Int)
  | str (s : String)
deriving DecidableEq

def pyStr : PyValue → String
  | .int n => toString n
  | .str s => s

/-- Python `str.startswith`: character-sequence prefix test. -/
def pyStartsWith (s pre : String) : Bool := pre.data.isPrefixOf s.data

def isPySpace (c : Char) : Bool :=
  c = ' ' || c = '\t' || c = '\n' || c = '\r' || c = '\x0b' || c = '\x0c'

/-- Python `str.strip()` with no argument: removes leading AND trailing
whitespace (the source applies it to the key-file contents, line 54). -/
def pyStrip (s : String) : String :=
  String.mk (((s.data.dropWhile isPySpace).reverse.dropWhile isPySpace).reverse)

/-- Removal of trailing whitespace only. This definition follows the
words of claim C9 ("trimmed of trailing whitespace"), for comparison
with `pyStrip`, which is what the source actually applies. -/
def specTrimTrailing (s : String) : String :=
  String.mk ((s.data.reverse.dropWhile isPySpace).reverse)

/-- Accessing `self.<attr>` when the attribute was never assigned:
Python raises `AttributeError`. `o = some v` models an assigned
attribute. -/
def getAttr {α : Type} (o : Option α) (attr : String) : Except PyError α :=
  match o with
  | some v => .ok v
  | none => .error (.attributeError attr)

/-! ## The wall-clock nonce

Source line 146: `nonce=time.time().hex().encode()`. The clock is
modelled from the spec as an explicit parameter `t : Nat`, the current
reading at the call, counted in clock ticks: two calls within the same
clock tick granularity receive the same `t`, and distinct readings
receive distinct `t` (Python's `float.hex` is injective on distinct
float readings, modelled here by the injective hex rendering
`floatHex`). -/

def hexDigitsAux : Nat → Nat → List Nat
  | 0, _ => []
  | _ + 1, 0 => []
  | fuel + 1, n + 1 => (n + 1) % 16 :: hexDigitsAux fuel ((n + 1) / 16)

/-- Little-endian base-16 digits of `n` (empty for 0). -/
def hexDigits (n : Nat) : List Nat := hexDigitsAux n n

/-- The hex rendering of a clock reading, modelling `float.hex()`. -/
def floatHex (t : Nat) : String := String.mk ((hexDigits t).reverse.map hexChar)

/-- `time.time().hex().encode()`: the nonce bytes of a call whose clock
reading is `t`. -/
def timeNonce (t : Nat) : List Nat := utf8 (floatHex t)

/-! ## The HTTP world

The `requests` library and the REST gateway are modelled as a function
`world : HttpRequest → HttpOutcome` supplied per call: the outcome of
issuing a given request. `resp` carries status code, reason and body
text; `connError` models `requests.ConnectionError`; `otherExc` any
other exception escaping the transport call. `requests.Response.ok` is
`status_code < 400`. -/

inductive HttpMethod where
  | get
  | post
deriving DecidableEq

structure HttpRequest where
  url : String
  method : HttpMethod
  headers : List (String × String)
  body : Option (List Nat)
deriving DecidableEq

inductive HttpOutcome where
  | resp (status : Nat) (reason : String) (text : String)
  | connError (msg : String)
  | otherExc (msg : String)
deriving DecidableEq

/-! ## The client itself -/

/-- The signer object produced by the external `sawtooth_signing`
crypto factory: all the client uses of it is `sign`, mapping serialized
bytes to a signature; it is a fixed function of the private key. -/
structure Signer where
  sign : List Nat → String

/-- The parsed private key returned by
`Secp256k1PrivateKey.from_hex` (external library). -/
structure PrivateKey where
  hex : String
deriving DecidableEq

/-- The state of a `SimpleWalletClient` after `__init__`. A field is
`none` when the corresponding Python attribute was never assigned
(`_publicKey`, `_address` for a key-less client) or assigned `None`
(`_signer`). -/
structure SimpleWalletClient where
  baseUrl : String
  signer : Option Signer
  publicKey : Option String
  address : Option String

/-- Source line 37. -/
def FAMILY_NAME : String := "simplewallet"

/-- Source lines 71-72: the account address,
`_hash(namespace.encode())[0:6] + _hash(publicKey.encode())[0:64]`
(the source fixes the namespace to `FAMILY_NAME`). -/
def deriveAddress (namespaceStr publicKey : String) : String :=
  String.mk ((_hash (utf8 namespaceStr)).data.take 6 ++
    (_hash (utf8 publicKey)).data.take 64)

/-- Source lines 44-72, `__init__`. The file system
(`readKeyFile`: contents, or the `OSError` message), the key parser
(`fromHex`: parsed key, or the `ParseError` message), the public-key
derivation `pubKeyHexOf` and the signing function `signWith` are
external dependencies passed in explicitly. -/
def clientInit (baseUrl : String) (keyFile : Option String)
    (readKeyFile : String → Except String String)
    (fromHex : String → Except String PrivateKey)
    (pubKeyHexOf : PrivateKey → String)
    (signWith : PrivateKey → List Nat → String) :
    Except PyError SimpleWalletClient :=
  match keyFile with
  | none => .ok { baseUrl := baseUrl, signer := none, publicKey := none, address := none }
  | some kf =>
    match readKeyFile kf with
    | .error err =>
      .error (.simpleWalletException
        ("Failed to read private key " ++ kf ++ ": " ++ err))
    | .ok contents =>
      let privateKeyStr := pyStrip contents
      match fromHex privateKeyStr with
      | .error e =>
        .error (.simpleWalletException ("Failed to load private key: " ++ e))
      | .ok privateKey =>
        let publicKey := pubKeyHexOf privateKey
        .ok { baseUrl := baseUrl
              signer := some { sign := signWith privateKey }
              publicKey := some publicKey
              address := some (deriveAddress FAMILY_NAME publicKey) }

/-- A variant of `clientInit` whose key-trimming follows the words of
claim C9 (trailing whitespace only) instead of the source's
`.strip()`; used only to compare the claim against the code. -/
def clientInitSpecTrim (baseUrl : String) (keyFile : Option String)
    (readKeyFile : String → Except String String)
    (fromHex : String → Except String PrivateKey)
    (pubKeyHexOf : PrivateKey → String)
    (signWith : PrivateKey → List Nat → String) :
    Except PyError SimpleWalletClient :=
  match keyFile with
  | none => .ok { baseUrl := baseUrl, signer := none, publicKey := none, address := none }
  | some kf =>
    match readKeyFile kf with
    | .error err =>
      .error (.simpleWalletException
        ("Failed to read private key " ++ kf ++ ": " ++ err))
    | .ok contents =>
      let privateKeyStr := specTrimTrailing contents
      match fromHex privateKeyStr with
      | .error e =>
        .error (.simpleWalletException ("Failed to load private key: " ++ e))
      | .ok privateKey =>
        let publicKey := pubKeyHexOf privateKey
        .ok { baseUrl := baseUrl
              signer := some { sign := signWith privateKey }
              publicKey := some publicKey
              address := some (deriveAddress FAMILY_NAME publicKey) }

/-! ## `_send_to_restapi` (source lines 93-124) -/

/-- Source lines 97-100: the request URL. `http://` is prefixed exactly
when the base URL does not start with `http://`. -/
def buildUrl (baseUrl suffix : String) : String :=
  if pyStartsWith baseUrl "http://" then baseUrl ++ "/" ++ suffix
  else "http://" ++ baseUrl ++ "/" ++ suffix

/-- Source lines 97-111: the request `_send_to_restapi` issues — the
URL above, the `Content-Type` header exactly when `contentType` is
given, a POST carrying `data` when `data` is given and a GET
otherwise. -/
def mkRequest (baseUrl suffix : String) (data : Option (List Nat))
    (contentType : Option String) : HttpRequest :=
  { url := buildUrl baseUrl suffix
    method := if data.isSome then .post else .get
    headers := match contentType with
      | some ct => [("Content-Type", ct)]
      | none => []
    body := data }

/-- Source lines 93-124. On a response with `ok` false (status ≥ 400) a
`SimpleWalletException` carrying status and reason is raised inside the
`try`; the blanket `except BaseException` re-wraps it in another
`SimpleWalletException` whose `str()` is the same message, so the
re-wrap is message-transparent and modelled as the message itself.
`connError` is caught by the dedicated `requests.ConnectionError`
branch, any other transport exception by the blanket branch. -/
def sendToRestApi (baseUrl : String) (world : HttpRequest → HttpOutcome)
    (suffix : String) (data : Option (List Nat)) (contentType : Option String) :
    Except PyError String :=
  match world (mkRequest baseUrl suffix data contentType) with
  | .resp status reason text =>
    if status < 400 then .ok text
    else .error (.simpleWalletException
      ("Error " ++ toString status ++ ": " ++ reason))
  | .connError msg =>
    .error (.simpleWalletException
      ("Failed to connect to " ++ buildUrl baseUrl suffix ++ ": " ++ msg))
  | .otherExc msg => .error (.simpleWalletException msg)

/-! ## `balance` (source lines 84-91)

`_send_to_restapi` is called OUTSIDE the `try`; only the decoding
(`base64.b64decode(yaml.safe_load(result)["data"])`) is inside it, and
its `except BaseException` returns `None`. The decoding stack (yaml +
base64, external libraries) is modelled from the spec as a parameter
`decodeData`, returning `none` whenever any of its failure modes
(missing `data` field, malformed base64, malformed document) occurs and
`some bytes` on success. -/

def balance (client : SimpleWalletClient) (world : HttpRequest → HttpOutcome)
    (decodeData : String → Option (List Nat)) :
    Except PyError (Option (List Nat)) :=
  match getAttr client.address "_address" with
  | .error e => .error e
  | .ok addr =>
    match sendToRestApi client.baseUrl world ("state/" ++ addr) none none with
    | .error e => .error e
    | .ok result => .ok (decodeData result)

/-! ## `_wrap_and_send` (source lines 126-180) -/

/-- Source line 131: the payload,
`",".join([action, str(value)]).encode()`. -/
def mkPayload (action : String) (value : PyValue) : List Nat :=
  utf8 (String.intercalate "," [action, pyStr value])

/-- The transaction header of source lines 137-147. -/
structure TransactionHeader where
  signer_public_key : String
  family_name : String
  family_version : String
  inputs : List String
  outputs : List String
  dependencies : List String
  payload_sha512 : String
  batcher_public_key : String
  nonce : List Nat
deriving DecidableEq

def mkTransactionHeader (publicKey address : String) (payload : List Nat)
    (t : Nat) : TransactionHeader :=
  { signer_public_key := publicKey
    family_name := FAMILY_NAME
    family_version := "1.0"
    inputs := [address]
    outputs := [address]
    dependencies := []
    payload_sha512 := _hash payload
    batcher_public_key := publicKey
    nonce := timeNonce t }

/-- Protobuf serialization of the transaction header
(`SerializeToString`, external `sawtooth_sdk` schema, not part of this
repository). Modelled from the spec as a deterministic rendering of the
fields; none of the claims depends on the byte format itself. -/
def serializeTransactionHeader (h : TransactionHeader) : List Nat :=
  utf8 ("TH|" ++ h.signer_public_key ++ "|" ++ h.family_name ++ "|" ++
    h.family_version ++ "|" ++ String.intercalate "," h.inputs ++ "|" ++
    String.intercalate "," h.outputs ++ "|" ++
    String.intercalate "," h.dependencies ++ "|" ++ h.payload_sha512 ++ "|" ++
    h.batcher_public_key ++ "|" ++ String.mk (hexOfBytes h.nonce))

structure Transaction where
  header : List Nat
  payload : List Nat
  header_signature : String

structure BatchHeader where
  signer_public_key : String
  transaction_ids : List String

structure Batch where
  header : List Nat
  transactions : List Transaction
  header_signature : String

structure BatchList where
  batches : List Batch

/-- Modelled from the spec: protobuf serialization of the batch header
(external framework schema), as a deterministic field rendering. -/
def serializeBatchHeader (h : BatchHeader) : List Nat :=
  utf8 ("BH|" ++ h.signer_public_key ++ "|" ++
    String.intercalate "," h.transaction_ids)

/-- Modelled from the spec: protobuf serialization of the batch list
(external framework schema), as a deterministic field rendering. -/
def serializeBatchList (bl : BatchList) : List Nat :=
  bl.batches.flatMap fun b =>
    utf8 ("BATCH|" ++ String.mk (hexOfBytes b.header) ++ "|" ++
      b.header_signature ++ "|") ++
    (b.transactions.flatMap fun txn =>
      utf8 ("TXN|" ++ String.mk (hexOfBytes txn.header) ++ "|" ++
        String.mk (hexOfBytes txn.payload) ++ "|" ++ txn.header_signature))

/-- Source lines 150-154: the transaction built from `(action, value)`
at clock reading `t`. -/
def mkTransaction (publicKey address : String) (sgn : Signer)
    (action : String) (value : PyValue) (t : Nat) : Transaction :=
  let payload := mkPayload action value
  let header := serializeTransactionHeader
    (mkTransactionHeader publicKey address payload t)
  { header := header, payload := payload, header_signature := sgn.sign header }

/-- Source lines 159-168: the batch wrapping a transaction list. -/
def mkBatch (publicKey : String) (sgn : Signer) (txns : List Transaction) :
    Batch :=
  let header := serializeBatchHeader
    { signer_public_key := publicKey
      transaction_ids := txns.map Transaction.header_signature }
  { header := header, transactions := txns, header_signature := sgn.sign header }

/-- Calling `.sign` on `self._signer` when it is `None` raises
`AttributeError` (NoneType has no attribute sign). -/
def signerOf (o : Option Signer) : Except PyError Signer :=
  match o with
  | some s => .ok s
  | none => .error (.attributeError "NoneType object has no attribute sign")

/-- Source lines 126-180, `_wrap_and_send`. Attribute accesses happen
in source order: `self._address` (line 134) is read before
`self._publicKey` (line 138) and before `self._signer.sign`
(line 153), so a key-less client fails on `_address` first. On success
the serialized single-batch batch list is POSTed to `batches` with
content type `application/octet-stream`. -/
def wrapAndSend (client : SimpleWalletClient)
    (world : HttpRequest → HttpOutcome) (action : String) (value : PyValue)
    (t : Nat) : Except PyError String :=
  match getAttr client.address "_address" with
  | .error e => .error e
  | .ok address =>
    match getAttr client.publicKey "_publicKey" with
    | .error e => .error e
    | .ok publicKey =>
      match signerOf client.signer with
      | .error e => .error e
      | .ok sgn =>
        sendToRestApi client.baseUrl world "batches"
          (some (serializeBatchList
            { batches := [mkBatch publicKey sgn
                [mkTransaction publicKey address sgn action value t]] }))
          (some "application/octet-stream")

/-- Source lines 74-77. -/
def deposit (client : SimpleWalletClient) (world : HttpRequest → HttpOutcome)
    (value : PyValue) (t : Nat) : Except PyError String :=
  wrapAndSend client world "deposit" value t

/-- Source lines 79-82. -/
def withdraw (client : SimpleWalletClient) (world : HttpRequest → HttpOutcome)
    (value : PyValue) (t : Nat) : Except PyError String :=
  wrapAndSend client world "withdraw" value t

/-- `sub` occurs as a contiguous subsequence of `l`. -/
def containsSeq : List Char → List Char → Bool
  | _, [] => true
  | [], _ :: _ => false
  | x :: xs, c :: cs => (c :: cs).isPrefixOf (x :: xs) || containsSeq xs (c :: cs)

/-- The spec-level notion of "a scheme is present" in a URL (the URL
contains a `://` separator), following the words of claim C8; used only
to compare the claim against the code's `startswith("http://")` test. -/
def hasScheme (s : String) : Bool := containsSeq s.data "://".data

/-- `c` is a lower-case hexadecimal character. -/
def isHexChar (c : Char) : Bool :=
  ("0123456789abcdef".data).contains c

/-- Value of a little-endian base-16 digit list; left inverse of
`hexDigits`, used to prove the nonce injective. -/
def fromHexDigits : List Nat → Nat
  | [] => 0
  | d :: ds => d + 16 * fromHexDigits ds

/-! ## Supporting lemmas -/

lemma charToNat_inj {a b : Char} (h : a.toNat = b.toNat) : a = b :=
  Char.eq_of_val_eq (UInt32.ext h)

lemma string_data_inj {s1 s2 : String} (h : s1.data = s2.data) : s1 = s2 := by
  cases s1; cases s2; cases h; rfl

lemma hexChar_inj16 :
    ∀ d1, d1 < 16 → ∀ d2, d2 < 16 → hexChar d1 = hexChar d2 → d1 = d2 := by
  decide

lemma hexChar_ascii : ∀ d, d < 16 → (hexChar d).toNat < 128 := by decide

lemma hexChar_isHex : ∀ d, d < 16 → isHexChar (hexChar d) = true := by decide

lemma utf8Char_ascii {c : Char} (h : c.toNat < 128) : utf8Char c = [c.toNat] := by
  unfold utf8Char
  simp only [if_pos h]

lemma utf8_ascii (l : List Char) (h : ∀ c ∈ l, c.toNat < 128) :
    l.flatMap utf8Char = l.map Char.toNat := by
  induction l with
  | nil => rfl
  | cons c cs ih =>
    rw [List.flatMap_cons, List.map_cons,
      utf8Char_ascii (h c (List.mem_cons_self c cs)),
      ih fun x hx => h x (List.mem_cons_of_mem c hx)]
    rfl

lemma map_charToNat_inj :
    ∀ l1 l2 : List Char, l1.map Char.toNat = l2.map Char.toNat → l1 = l2 := by
  intro l1
  induction l1 with
  | nil => intro l2 h; cases l2 with
    | nil => rfl
    | cons b bs => simp at h
  | cons a as ih =>
    intro l2 h
    cases l2 with
    | nil => simp at h
    | cons b bs =>
      simp only [List.map_cons, List.cons.injEq] at h
      rw [charToNat_inj h.1, ih bs h.2]

lemma map_hexChar_inj :
    ∀ l1 l2 : List Nat, (∀ d ∈ l1, d < 16) → (∀ d ∈ l2, d < 16) →
      l1.map hexChar = l2.map hexChar → l1 = l2 := by
  intro l1
  induction l1 with
  | nil => intro l2 _ _ h; cases l2 with
    | nil => rfl
    | cons b bs => simp at h
  | cons a as ih =>
    intro l2 h1 h2 h
    cases l2 with
    | nil => simp at h
    | cons b bs =>
      simp only [List.map_cons, List.cons.injEq] at h
      rw [hexChar_inj16 a (h1 a (List.mem_cons_self a as)) b
          (h2 b (List.mem_cons_self b bs)) h.1,
        ih bs (fun d hd => h1 d (List.mem_cons_of_mem a hd))
          (fun d hd => h2 d (List.mem_cons_of_mem b hd)) h.2]

lemma hexDigitsAux_roundtrip :
    ∀ fuel n, n ≤ fuel → fromHexDigits (hexDigitsAux fuel n) = n := by
  intro fuel
  induction fuel with
  | zero =>
    intro n h
    have : n = 0 := Nat.le_zero.mp h
    subst this
    rfl
  | succ f ih =>
    intro n h
    match n with
    | 0 => rfl
    | m + 1 =>
      have hdiv : (m + 1) / 16 ≤ f := by
        have := Nat.div_lt_self (Nat.succ_pos m) (by norm_num : 1 < 16)
        omega
      show fromHexDigits ((m + 1) % 16 :: hexDigitsAux f ((m + 1) / 16)) = m + 1
      rw [fromHexDigits, ih _ hdiv]
      exact Nat.mod_add_div (m + 1) 16

lemma hexDigits_inj {n m : Nat} (h : hexDigits n = hexDigits m) : n = m := by
  have hn := hexDigitsAux_roundtrip n n le_rfl
  have hm := hexDigitsAux_roundtrip m m le_rfl
  unfold hexDigits at h
  rw [← hn, ← hm, h]

lemma hexDigitsAux_lt16 : ∀ fuel n d, d ∈ hexDigitsAux fuel n → d < 16 := by
  intro fuel
  induction fuel with
  | zero => intro n d hd; simp [hexDigitsAux] at hd
  | succ f ih =>
    intro n d hd
    match n with
    | 0 => simp [hexDigitsAux] at hd
    | m + 1 =>
      rw [hexDigitsAux] at hd
      rcases List.mem_cons.mp hd with h | h
      · subst h; exact Nat.mod_lt _ (by norm_num)
      · exact ih _ _ h

lemma floatHex_inj {t1 t2 : Nat} (h : floatHex t1 = floatHex t2) : t1 = t2 := by
  unfold floatHex at h
  have h2 : (hexDigits t1).reverse.map hexChar = (hexDigits t2).reverse.map hexChar := by
    have := congrArg String.data h
    exact this
  have h3 := map_hexChar_inj _ _
    (fun d hd => hexDigitsAux_lt16 t1 t1 d (List.mem_reverse.mp hd))
    (fun d hd => hexDigitsAux_lt16 t2 t2 d (List.mem_reverse.mp hd)) h2
  exact hexDigits_inj (List.reverse_injective h3)

lemma floatHex_ascii (t : Nat) : ∀ c ∈ (floatHex t).data, c.toNat < 128 := by
  intro c hc
  have hc2 : c ∈ (hexDigits t).reverse.map hexChar := hc
  obtain ⟨d, hd, rfl⟩ := List.mem_map.mp hc2
  exact hexChar_ascii d (hexDigitsAux_lt16 t t d (List.mem_reverse.mp hd))

lemma timeNonce_inj {t1 t2 : Nat} (h : timeNonce t1 = timeNonce t2) : t1 = t2 := by
  unfold timeNonce utf8 at h
  rw [utf8_ascii _ (floatHex_ascii t1), utf8_ascii _ (floatHex_ascii t2)] at h
  exact floatHex_inj (string_data_inj (map_charToNat_inj _ _ h))

lemma hexOfBytes_length (l : List Nat) : (hexOfBytes l).length = 2 * l.length := by
  induction l with
  | nil => rfl
  | cons b bs ih =>
    show ([hexChar (b / 16), hexChar (b % 16)] ++ hexOfBytes bs).length = _
    rw [List.length_append, ih]
    simp
    omega

lemma hexOfBytes_isHex (l : List Nat) (h : ∀ b ∈ l, b < 256) :
    ∀ c ∈ hexOfBytes l, isHexChar c = true := by
  intro c hc
  unfold hexOfBytes at hc
  obtain ⟨b, hb, hc2⟩ := List.mem_flatMap.mp hc
  have hb256 := h b hb
  rcases List.mem_cons.mp hc2 with rfl | h1
  · exact hexChar_isHex (b / 16) (by omega)
  · rcases List.mem_cons.mp h1 with rfl | h2
    · exact hexChar_isHex (b % 16) (by omega)
    · cases h2

lemma digestOf_length (st : Sha512State) : (digestOf st).length = 64 := by
  simp [digestOf, wordBytes]

lemma wordBytes_lt (w : Nat) : ∀ b ∈ wordBytes w, b < 256 := by
  intro b hb
  obtain ⟨i, _, rfl⟩ := List.mem_map.mp hb
  exact Nat.mod_lt _ (by norm_num)

lemma digestOf_lt (st : Sha512State) : ∀ b ∈ digestOf st, b < 256 := by
  intro b hb
  unfold digestOf at hb
  simp only [List.mem_append] at hb
  rcases hb with ((((((h | h) | h) | h) | h) | h) | h) | h <;>
    exact wordBytes_lt _ _ h

lemma sha512_length (msg : List Nat) : (sha512 msg).length = 64 :=
  digestOf_length _

lemma sha512_lt (msg : List Nat) : ∀ b ∈ sha512 msg, b < 256 :=
  digestOf_lt _

lemma _hash_data_length (data : List Nat) : (_hash data).data.length = 128 := by
  show (hexOfBytes (sha512 data)).length = 128
  rw [hexOfBytes_length, sha512_length]

lemma _hash_isHex (data : List Nat) :
    ∀ c ∈ (_hash data).data, isHexChar c = true := by
  intro c hc
  exact hexOfBytes_isHex (sha512 data) (sha512_lt data) c hc

/-- The SHA-512 implementation above agrees with the published FIPS
180-4 test vector for the empty message. -/
theorem sha512_vector_empty :
    _hash [] =
      "cf83e1357eefb8bdf1542850d66d8007d620e4050b5715dc83f4a921d36ce9ce47d0d13c5d85f2b0ff8318d2877eec2f63b931bd47417a81a538327af927da3e" := by
  rfl

/-- The SHA-512 implementation above agrees with the published FIPS
180-4 test vector for the message "abc". -/
theorem sha512_vector_abc :
    _hash (utf8 "abc") =
      "ddaf35a193617abacc417349ae20413112e6fa4e89a97ea20a9eeee64b55d39a2192992a274fc1a836ba3c23a3feebbd454d4423643ce80e2a9ac94fa54ca49f" := by
  rfl

/-! ## The claims -/

/-- C1, counterexample. The claim says `balance()` returns `None`
instead of raising when fetching the state entry fails, including an
unreachable service. On a client whose world refuses the connection,
`balance` raises the submission error produced by `_send_to_restapi`
(which is called OUTSIDE the `try` block), instead of returning an
absent result. -/
theorem C1_counterexample :
    balance
      { baseUrl := "localhost:8008", signer := some { sign := fun _ => "sig" },
        publicKey := some "pk", address := some "aa" }
      (fun _ => .connError "refused") (fun _ => none) =
      .error (.simpleWalletException
        "Failed to connect to http://localhost:8008/state/aa: refused") := by
  rfl

/-- C1, amended. `balance()` never raises due to DECODING: once the
state fetch succeeds, any decoding outcome (including every failure
mode, modelled by `decodeData` returning `none`) is returned as a plain
result and never an error; but a failure of the fetch itself (transport
error, unreachable service, non-success HTTP status) propagates as the
submission error raised by `_send_to_restapi`. -/
theorem C1_balance_soft_failure :
    ∀ (client : SimpleWalletClient) (world : HttpRequest → HttpOutcome)
      (decodeData : String → Option (List Nat)) (addr : String),
      client.address = some addr →
      (∀ s, sendToRestApi client.baseUrl world ("state/" ++ addr) none none = .ok s →
        balance client world decodeData = .ok (decodeData s)) ∧
      (∀ e, sendToRestApi client.baseUrl world ("state/" ++ addr) none none = .error e →
        balance client world decodeData = .error e) := by
  intro client world decodeData addr h
  have hb : balance client world decodeData =
      match sendToRestApi client.baseUrl world ("state/" ++ addr) none none with
      | .error e => .error e
      | .ok result => .ok (decodeData result) := by
    unfold balance
    rw [h]
    rfl
  constructor
  · intro s hs
    rw [hb, hs]
  · intro e he
    rw [hb, he]

/-- C1, witness: a concrete client whose fetch succeeds but whose
response decodes to nothing gets `ok none` — an absent result, no
error. -/
theorem C1_witness :
    ({ baseUrl := "localhost:8008", signer := some { sign := fun _ => "sig" },
       publicKey := some "pk", address := some "aa" } : SimpleWalletClient).address =
      some "aa" ∧
    balance
      { baseUrl := "localhost:8008", signer := some { sign := fun _ => "sig" },
        publicKey := some "pk", address := some "aa" }
      (fun _ => .resp 200 "OK" "not yaml at all") (fun _ => none) = .ok none :=
  ⟨rfl,
    (C1_balance_soft_failure
      { baseUrl := "localhost:8008", signer := some { sign := fun _ => "sig" },
        publicKey := some "pk", address := some "aa" }
      (fun _ => .resp 200 "OK" "not yaml at all") (fun _ => none) "aa" rfl).1
      "not yaml at all" rfl⟩

/-- C2. The claim says a key-less client has `balance()` succeed while
`deposit`/`withdraw` fail with a configuration error
(`SimpleWalletException`). In the code, `__init__` with `keyFile=None`
returns after setting only `_signer = None`, so `_publicKey` and
`_address` are never assigned and `_wrap_and_send` never checks
`_signer`: `balance()`, `deposit()` and `withdraw()` ALL raise
`AttributeError` on `self._address`, which is not a
`SimpleWalletException`. -/
theorem C2_keyless_bug :
    ∀ (url : String) (rf : String → Except String String)
      (fh : String → Except String PrivateKey) (pkOf : PrivateKey → String)
      (sw : PrivateKey → List Nat → String) (world : HttpRequest → HttpOutcome)
      (decodeData : String → Option (List Nat)) (v : PyValue) (t : Nat),
      clientInit url none rf fh pkOf sw =
        .ok { baseUrl := url, signer := none, publicKey := none, address := none } ∧
      balance { baseUrl := url, signer := none, publicKey := none, address := none }
          world decodeData = .error (.attributeError "_address") ∧
      deposit { baseUrl := url, signer := none, publicKey := none, address := none }
          world v t = .error (.attributeError "_address") ∧
      withdraw { baseUrl := url, signer := none, publicKey := none, address := none }
          world v t = .error (.attributeError "_address") ∧
      isSWExc (.attributeError "_address") = false := by
  intro url rf fh pkOf sw world decodeData v t
  exact ⟨rfl, rfl, rfl, rfl, rfl⟩

/-- C3, counterexample. The claim says two wrap-and-send calls with the
same `(action, value)` carry different nonces even within the same
clock tick granularity. The nonce is a pure function of the
`time.time()` reading alone, so two calls whose readings fall in the
same clock tick (both read 42 here) build headers with the SAME nonce;
concretely, the nonce of a call at reading 42 is the UTF-8 bytes of
"2a". -/
theorem C3_counterexample :
    (mkTransactionHeader "pubkey" "addr" (mkPayload "deposit" (PyValue.int 1)) 42).nonce =
      (mkTransactionHeader "pubkey" "addr" (mkPayload "deposit" (PyValue.int 1)) 42).nonce ∧
    timeNonce 42 = utf8 "2a" :=
  ⟨rfl, rfl⟩

/-- C3, amended. The nonce is an injective function of the wall-clock
reading alone: two calls with identical `(action, value)` produce
different nonces (and different headers) if and only if their clock
readings differ; within the same clock tick the nonces coincide. -/
theorem C3_nonce_injective :
    ∀ (pk addr : String) (payload : List Nat) (t1 t2 : Nat),
      t1 ≠ t2 →
      (mkTransactionHeader pk addr payload t1).nonce ≠
        (mkTransactionHeader pk addr payload t2).nonce ∧
      mkTransactionHeader pk addr payload t1 ≠
        mkTransactionHeader pk addr payload t2 := by
  intro pk addr payload t1 t2 hne
  have hn : timeNonce t1 ≠ timeNonce t2 := fun h => hne (timeNonce_inj h)
  exact ⟨hn, fun h => hn (congrArg TransactionHeader.nonce h)⟩

/-- C3, witness: clock readings 0 and 1 give different nonces. -/
theorem C3_witness :
    (0 : Nat) ≠ 1 ∧
    (mkTransactionHeader "pk" "aa" [] 0).nonce ≠
      (mkTransactionHeader "pk" "aa" [] 1).nonce :=
  ⟨by decide, (C3_nonce_injective "pk" "aa" [] 0 1 (by decide)).1⟩

/-- C4. The derived account address is
`_hash(namespace)[0:6] + _hash(publicKey)[0:64]` with `_hash` the
SHA-512 hex digest; it is a 70-character string of hexadecimal
characters. Determinism holds because `deriveAddress` is a pure
function of exactly `(namespace, publicKey)`. -/
theorem C4_address :
    ∀ (ns pk : String),
      (deriveAddress ns pk).length = 70 ∧
      (deriveAddress ns pk).data.all isHexChar = true ∧
      deriveAddress ns pk =
        String.mk ((_hash (utf8 ns)).data.take 6 ++ (_hash (utf8 pk)).data.take 64) := by
  intro ns pk
  refine ⟨?_, ?_, rfl⟩
  · show ((_hash (utf8 ns)).data.take 6 ++ (_hash (utf8 pk)).data.take 64).length = 70
    rw [List.length_append, List.length_take, List.length_take,
      _hash_data_length, _hash_data_length]
    decide
  · rw [List.all_eq_true]
    intro c hc
    rcases List.mem_append.mp hc with h | h
    · exact _hash_isHex (utf8 ns) c (List.take_subset 6 _ h)
    · exact _hash_isHex (utf8 pk) c (List.take_subset 64 _ h)

/-- C5. `_send_to_restapi` raises a submission error exactly on a
non-success status (status ≥ 400, message carrying status code and
reason) or a transport failure (connection errors and any other
exception, message preserved); it returns the raw response body text
exactly when the response has a success status. -/
theorem C5_send_to_restapi :
    ∀ (baseUrl : String) (world : HttpRequest → HttpOutcome) (suffix : String)
      (data : Option (List Nat)) (ct : Option String),
      (∀ st rsn txt, world (mkRequest baseUrl suffix data ct) = .resp st rsn txt →
        sendToRestApi baseUrl world suffix data ct =
          if st < 400 then .ok txt
          else .error (.simpleWalletException
            ("Error " ++ toString st ++ ": " ++ rsn))) ∧
      (∀ m, world (mkRequest baseUrl suffix data ct) = .connError m →
        sendToRestApi baseUrl world suffix data ct =
          .error (.simpleWalletException
            ("Failed to connect to " ++ buildUrl baseUrl suffix ++ ": " ++ m))) ∧
      (∀ m, world (mkRequest baseUrl suffix data ct) = .otherExc m →
        sendToRestApi baseUrl world suffix data ct =
          .error (.simpleWalletException m)) ∧
      (∀ s, sendToRestApi baseUrl world suffix data ct = .ok s →
        ∃ st rsn, world (mkRequest baseUrl suffix data ct) = .resp st rsn s ∧
          st < 400) := by
  intro baseUrl world suffix data ct
  refine ⟨?_, ?_, ?_, ?_⟩
  · intro st rsn txt hw
    unfold sendToRestApi
    rw [hw]
  · intro m hw
    unfold sendToRestApi
    rw [hw]
  · intro m hw
    unfold sendToRestApi
    rw [hw]
  · intro s hs
    cases hw : world (mkRequest baseUrl suffix data ct) with
    | resp st rsn txt =>
      have hval : sendToRestApi baseUrl world suffix data ct =
          if st < 400 then .ok txt
          else .error (.simpleWalletException
            ("Error " ++ toString st ++ ": " ++ rsn)) := by
        unfold sendToRestApi
        rw [hw]
      rw [hval] at hs
      by_cases hlt : st < 400
      · rw [if_pos hlt] at hs
        cases hs
        exact ⟨st, rsn, rfl, hlt⟩
      · rw [if_neg hlt] at hs
        cases hs
    | connError m =>
      have hval : sendToRestApi baseUrl world suffix data ct =
          .error (.simpleWalletException
            ("Failed to connect to " ++ buildUrl baseUrl suffix ++ ": " ++ m)) := by
        unfold sendToRestApi
        rw [hw]
      rw [hval] at hs
      cases hs
    | otherExc m =>
      have hval : sendToRestApi baseUrl world suffix data ct =
          .error (.simpleWalletException m) := by
        unfold sendToRestApi
        rw [hw]
      rw [hval] at hs
      cases hs

/-- C5, witness: a 404 response raises the submission error carrying
status and reason. -/
theorem C5_witness :
    sendToRestApi "localhost:8008" (fun _ => .resp 404 "Not Found" "")
        "batches" none none =
      .error (.simpleWalletException "Error 404: Not Found") := by
  have h := (C5_send_to_restapi "localhost:8008"
    (fun _ => .resp 404 "Not Found" "") "batches" none none).1 404 "Not Found" "" rfl
  rw [h]
  rfl

/-- C6. The payload of a wrap-and-send call is exactly the UTF-8
encoding of "{action},{value}", and the SHA-512 hex digest placed in
the header is a function of `(action, value)` alone: it is unchanged
under any change of signer key, address or clock reading. The last
conjunct ties the construction to the submission: the POSTed body is
the serialized batch list built from that payload. -/
theorem C6_payload :
    ∀ (action : String) (v : PyValue) (url : String) (sgn : Signer)
      (pk addr : String) (world : HttpRequest → HttpOutcome) (t : Nat)
      (pk2 addr2 : String) (t2 : Nat),
      mkPayload action v = utf8 (action ++ "," ++ pyStr v) ∧
      (mkTransaction pk addr sgn action v t).payload =
        utf8 (action ++ "," ++ pyStr v) ∧
      (mkTransactionHeader pk addr (mkPayload action v) t).payload_sha512 =
        (mkTransactionHeader pk2 addr2 (mkPayload action v) t2).payload_sha512 ∧
      wrapAndSend
          { baseUrl := url, signer := some sgn, publicKey := some pk,
            address := some addr } world action v t =
        sendToRestApi url world "batches"
          (some (serializeBatchList
            { batches := [mkBatch pk sgn [mkTransaction pk addr sgn action v t]] }))
          (some "application/octet-stream") := by
  intro action v url sgn pk addr world t pk2 addr2 t2
  exact ⟨rfl, rfl, rfl, rfl⟩

/-- C7. Every transaction header built by wrap-and-send carries the
signer public key, family name "simplewallet", family version "1.0",
inputs and outputs both the single-element address list, no
dependencies, the SHA-512 hex digest of the payload, and a batcher
public key equal to the signer public key. -/
theorem C7_header_fields :
    ∀ (pk addr : String) (payload : List Nat) (t : Nat),
      (mkTransactionHeader pk addr payload t).signer_public_key = pk ∧
      (mkTransactionHeader pk addr payload t).family_name = "simplewallet" ∧
      (mkTransactionHeader pk addr payload t).family_version = "1.0" ∧
      (mkTransactionHeader pk addr payload t).inputs = [addr] ∧
      (mkTransactionHeader pk addr payload t).outputs = [addr] ∧
      (mkTransactionHeader pk addr payload t).dependencies = [] ∧
      (mkTransactionHeader pk addr payload t).payload_sha512 = _hash payload ∧
      (mkTransactionHeader pk addr payload t).batcher_public_key =
        (mkTransactionHeader pk addr payload t).signer_public_key := by
  intro pk addr payload t
  exact ⟨rfl, rfl, rfl, rfl, rfl, rfl, rfl, rfl⟩

/-- C8, counterexample. The claim says `http://` is prefixed exactly
when no scheme is present and that a POST carries the content-type
header whenever data is given. But `https://example.com` has a scheme
and is still prefixed (the code only tests `startswith("http://")`),
and a request with data but no content type carries no content-type
header. -/
theorem C8_counterexample :
    hasScheme "https://example.com" = true ∧
    buildUrl "https://example.com" "batches" =
      "http://https://example.com/batches" ∧
    (mkRequest "localhost:8008" "batches" (some [1, 2]) none).method = .post ∧
    (mkRequest "localhost:8008" "batches" (some [1, 2]) none).headers = [] :=
  ⟨rfl, rfl, rfl, rfl⟩

/-- C8, amended. The request URL prefixes `http://` exactly when the
base URL does not START WITH `http://` (a base URL with any other
scheme still gets the prefix), then appends "/" and the suffix; the
method is GET exactly when no data is given and POST carrying the data
when it is; the content-type header is attached exactly when a content
type is given. -/
theorem C8_request :
    ∀ (baseUrl suffix : String) (data : Option (List Nat)) (ct : Option String),
      (pyStartsWith baseUrl "http://" = true →
        buildUrl baseUrl suffix = baseUrl ++ "/" ++ suffix) ∧
      (pyStartsWith baseUrl "http://" = false →
        buildUrl baseUrl suffix = "http://" ++ baseUrl ++ "/" ++ suffix) ∧
      (mkRequest baseUrl suffix none ct).method = .get ∧
      (∀ d, (mkRequest baseUrl suffix (some d) ct).method = .post ∧
        (mkRequest baseUrl suffix (some d) ct).body = some d) ∧
      (mkRequest baseUrl suffix data none).headers = [] ∧
      (∀ c, (mkRequest baseUrl suffix data (some c)).headers =
        [("Content-Type", c)]) ∧
      (mkRequest baseUrl suffix data ct).url = buildUrl baseUrl suffix := by
  intro baseUrl suffix data ct
  refine ⟨?_, ?_, rfl, fun d => ⟨rfl, rfl⟩, rfl, fun c => rfl, rfl⟩
  · intro h
    unfold buildUrl
    rw [h]
    rfl
  · intro h
    unfold buildUrl
    rw [h]
    rfl

/-- C8, witness: a schemeless base URL gets the prefix. -/
theorem C8_witness :
    pyStartsWith "localhost:8008" "http://" = false ∧
    buildUrl "localhost:8008" "batches" = "http://localhost:8008/batches" := by
  have h := (C8_request "localhost:8008" "batches" none none).2.1 rfl
  rw [h]
  exact ⟨rfl, rfl⟩

/-- C9, counterexample. The claim says the key-file contents are
trimmed of TRAILING whitespace before parsing. Python `str.strip()`
trims both ends: on contents " abc\n" (leading space) the code parses
"abc" and succeeds, whereas trimming trailing whitespace only would
hand " abc" to the parser and fail. -/
theorem C9_counterexample :
    pyStrip " abc\n" = "abc" ∧
    specTrimTrailing " abc\n" = " abc" ∧
    clientInit "localhost:8008" (some "wallet.priv") (fun _ => .ok " abc\n")
        (fun s => if s = "abc" then .ok { hex := "abc" } else .error "parse failure")
        (fun k => k.hex) (fun _ _ => "sig") =
      .ok { baseUrl := "localhost:8008", signer := some { sign := fun _ => "sig" },
            publicKey := some "abc",
            address := some (deriveAddress "simplewallet" "abc") } ∧
    clientInitSpecTrim "localhost:8008" (some "wallet.priv") (fun _ => .ok " abc\n")
        (fun s => if s = "abc" then .ok { hex := "abc" } else .error "parse failure")
        (fun k => k.hex) (fun _ _ => "sig") =
      .error (.simpleWalletException "Failed to load private key: parse failure") :=
  ⟨rfl, rfl, rfl, rfl⟩

/-- C9, amended. At construction with a key file, the contents are read
and trimmed of leading and trailing whitespace (`str.strip()`), then
parsed as a hex-encoded secp256k1 private key; an unreadable file
raises a configuration error naming the path and the underlying cause,
and a malformed key raises a configuration error naming the parse
failure; on success the public key and the account address are
derived. -/
theorem C9_construction :
    ∀ (url kf : String) (rf : String → Except String String)
      (fh : String → Except String PrivateKey) (pkOf : PrivateKey → String)
      (sw : PrivateKey → List Nat → String),
      (∀ e, rf kf = .error e →
        clientInit url (some kf) rf fh pkOf sw =
          .error (.simpleWalletException
            ("Failed to read private key " ++ kf ++ ": " ++ e))) ∧
      (∀ c pe, rf kf = .ok c → fh (pyStrip c) = .error pe →
        clientInit url (some kf) rf fh pkOf sw =
          .error (.simpleWalletException ("Failed to load private key: " ++ pe))) ∧
      (∀ c k, rf kf = .ok c → fh (pyStrip c) = .ok k →
        clientInit url (some kf) rf fh pkOf sw =
          .ok { baseUrl := url, signer := some { sign := sw k },
                publicKey := some (pkOf k),
                address := some (deriveAddress FAMILY_NAME (pkOf k)) }) := by
  intro url kf rf fh pkOf sw
  have hstep : clientInit url (some kf) rf fh pkOf sw =
      (match rf kf with
       | .error err =>
         .error (.simpleWalletException
           ("Failed to read private key " ++ kf ++ ": " ++ err))
       | .ok contents =>
         match fh (pyStrip contents) with
         | .error e =>
           .error (.simpleWalletException ("Failed to load private key: " ++ e))
         | .ok privateKey =>
           .ok { baseUrl := url, signer := some { sign := sw privateKey },
                 publicKey := some (pkOf privateKey),
                 address := some (deriveAddress FAMILY_NAME (pkOf privateKey)) }) :=
    rfl
  refine ⟨?_, ?_, ?_⟩
  · intro e he
    rw [hstep, he]
  · intro c pe hc hpe
    rw [hstep, hc]
    show ((match fh (pyStrip c) with
      | .error e =>
        .error (.simpleWalletException ("Failed to load private key: " ++ e))
      | .ok privateKey =>
        .ok { baseUrl := url, signer := some { sign := sw privateKey },
              publicKey := some (pkOf privateKey),
              address := some (deriveAddress FAMILY_NAME (pkOf privateKey)) }) :
      Except PyError SimpleWalletClient) = _
    rw [hpe]
  · intro c k hc hk
    rw [hstep, hc]
    show ((match fh (pyStrip c) with
      | .error e =>
        .error (.simpleWalletException ("Failed to load private key: " ++ e))
      | .ok privateKey =>
        .ok { baseUrl := url, signer := some { sign := sw privateKey },
              publicKey := some (pkOf privateKey),
              address := some (deriveAddress FAMILY_NAME (pkOf privateKey)) }) :
      Except PyError SimpleWalletClient) = _
    rw [hk]

/-- C9, witness: a readable, well-formed key file (with surrounding
whitespace) yields a client with signer, public key and derived
address. -/
theorem C9_witness :
    (fun (_ : String) => (.ok " 1234abcd\n" : Except String String)) "wallet.priv" =
      .ok " 1234abcd\n" ∧
    (fun s => if s = "1234abcd" then (.ok { hex := "1234abcd" } : Except String PrivateKey)
      else .error "bad") (pyStrip " 1234abcd\n") = .ok { hex := "1234abcd" } ∧
    clientInit "localhost:8008" (some "wallet.priv")
        (fun _ => .ok " 1234abcd\n")
        (fun s => if s = "1234abcd" then .ok { hex := "1234abcd" } else .error "bad")
        (fun k => k.hex) (fun _ _ => "sig") =
      .ok { baseUrl := "localhost:8008", signer := some { sign := fun _ => "sig" },
            publicKey := some "1234abcd",
            address := some (deriveAddress FAMILY_NAME "1234abcd") } :=
  ⟨rfl, rfl,
    (C9_construction "localhost:8008" "wallet.priv" (fun _ => .ok " 1234abcd\n")
      (fun s => if s = "1234abcd" then .ok { hex := "1234abcd" } else .error "bad")
      (fun k => k.hex) (fun _ _ => "sig")).2.2 " 1234abcd\n" { hex := "1234abcd" }
      rfl rfl⟩

/-- C10. `deposit(value)` and `withdraw(value)` validate nothing: each
delegates to wrap-and-send with its literal action name, and for every
value — negative numbers and non-numeric strings included — the payload
is exactly the action, a comma, and the `str()` rendering of the value,
unchanged. -/
theorem C10_no_validation :
    ∀ (client : SimpleWalletClient) (world : HttpRequest → HttpOutcome)
      (v : PyValue) (t : Nat) (action : String),
      deposit client world v t = wrapAndSend client world "deposit" v t ∧
      withdraw client world v t = wrapAndSend client world "withdraw" v t ∧
      mkPayload action v = utf8 (action ++ "," ++ pyStr v) ∧
      mkPayload "deposit" (PyValue.int (-7)) = utf8 "deposit,-7" ∧
      mkPayload "withdraw" (PyValue.str "not a number") =
        utf8 "withdraw,not a number" := by
  intro client world v t action
  exact ⟨rfl, rfl, rfl, by rfl, rfl⟩

end SimpleWallet
